import Mathlib

/-!
Verification of the bounded-memory pyramid construction and tiled-container
writing pipeline of the mcmicro registration scripts.

The definitions below are shallow embeddings of the Python sources:
  * `build_pyramid`, `downCHW`      from convert_to_pyramidal.py (lines 16-28)
    and scripts/register_akoya_palom_v1.py (lines 179-199);
  * `downsample_2x`                 from downsample_registered.py (lines 15-19)
    and register_akoya_palom_v2.py (lines 96-100);
  * `batchStarts`, `levelWrites`, `writeSequence`
                                    from scripts/register_akoya_palom_v1.py
    (lines 636-699): the batched tiled-container write loop;
  * `materializeFrom`, `mainPipeline`
                                    from register_akoya_palom.py main
    (temp dir at line 173, channel loop 199-289, try at 296, finally 453-457);
  * `report_progress`, `progressSeq`
                                    from register_akoya_palom.py (lines 98-104
    and the report calls at 192, 210-211, 275-276, 294, 300, 349, 406-417, 435);
  * `pixelSizeOrDefault`            from convert_to_pyramidal.py (lines 56-62);
  * `pixelSizeOrDefaultDownsample`  from downsample_registered.py (lines 65-77);
  * `safe_da_to_zarr`               from register_akoya_palom.py (lines 385-394);
  * `load_marker_names`             from register_akoya_palom.py (lines 73-95).

Pixel samples are modelled as `Nat` (the sources use unsigned integer dtypes
inherited from the input image).  2-D planes and 3-D channel stacks are
modelled as dimensions plus a total indexing function, matching NumPy array
semantics for the slicing the sources perform.
-/

/-- A single-channel 2-D plane: height, width and a sample function.
Models a NumPy 2-D array of unsigned-integer samples. -/
structure Img where
  h : Nat
  w : Nat
  px : Nat → Nat → Nat

/-- A multi-channel image stack (C, H, W), the shape the pipeline carries. -/
structure CImg where
  c : Nat
  h : Nat
  w : Nat
  px : Nat → Nat → Nat → Nat

/-- Default element used with `List.getD` when indexing pyramid level lists. -/
def dummyC : CImg :=
  { c := 0, h := 0, w := 0, px := fun _ _ _ => 0 }

/-- downsample_registered.py lines 15-19 and register_akoya_palom_v2.py lines
96-100: `img[:2*h2:2, :2*w2:2]` with `h2, w2 = h // 2, w // 2` — keep every
second row and column (decimation), truncated to the floor dimensions. -/
def downsample_2x (img : Img) : Img :=
  { h := img.h / 2
    w := img.w / 2
    px := fun i j => img.px (2 * i) (2 * j) }

/-- Second definition for comparison, written from the specification text, not
from the source (no local-mean code exists in the repository): spec section 4.3
option (b), "local-mean — average each non-overlapping 2x2 block". -/
def local_mean_2x_spec (img : Img) : Img :=
  { h := img.h / 2
    w := img.w / 2
    px := fun i j =>
      (img.px (2 * i) (2 * j) + img.px (2 * i) (2 * j + 1) +
        img.px (2 * i + 1) (2 * j) + img.px (2 * i + 1) (2 * j + 1)) / 4 }

/-- Extract channel `ch` of a stack as a 2-D plane (NumPy `data[ch]`). -/
def CImg.plane (img : CImg) (ch : Nat) : Img :=
  { h := img.h, w := img.w, px := img.px ch }

/-- convert_to_pyramidal.py line 26 (and v1 line 197):
`down = prev[:, : 2 * h2 : 2, : 2 * w2 : 2]` — the 2x decimation step applied
to all channels of a (C, H, W) stack at once. -/
def downCHW (img : CImg) : CImg :=
  { c := img.c
    h := img.h / 2
    w := img.w / 2
    px := fun ch i j => img.px ch (2 * i) (2 * j) }

/-- The loop body of `build_pyramid` (convert_to_pyramidal.py lines 19-27):
`for lvl in range(1, max_levels): prev = levels[-1]; if min(h, w) <
min_size_for_next: break; levels.append(down)`.  `fuel` is the number of
remaining loop iterations (`max_levels - 1` at the start); the result is the
list of levels appended after level 0. -/
def buildPyramidAux (thr : Nat) : CImg → Nat → List CImg
  | _, 0 => []
  | prev, fuel + 1 =>
    if min prev.h prev.w < thr then []
    else downCHW prev :: buildPyramidAux thr (downCHW prev) fuel

/-- convert_to_pyramidal.py lines 16-28 (`build_pyramid`): level 0 is the data
itself; up to `max_levels` total entries; each new level is the 2x decimation
of the previous one; the loop stops when the previously emitted level's
minimum dimension is below `min_size_for_next`.  `max_levels = 0` behaves like
Python `range(1, 0)` (no iterations), still emitting level 0. -/
def build_pyramid (data : CImg) (max_levels : Nat) (min_size_for_next : Nat) :
    List CImg :=
  data :: buildPyramidAux min_size_for_next data (max_levels - 1)

/-- OME metadata carried by the very first TIFF write
(scripts/register_akoya_palom_v1.py lines 673-679): axes plus the physical
pixel size, in micrometers, for X and Y (both set to the same `pixel_size`). -/
structure OmeMetadata where
  axes : String
  physicalSizeX : ℚ
  physicalSizeY : ℚ
deriving DecidableEq

/-- One `tif.write(...)` call of the batched writer
(scripts/register_akoya_palom_v1.py lines 666-699): which level and batch it
belongs to, whether the OME metadata dict was passed, and whether
`subfiletype=1` (reduced-resolution flag) was passed. -/
structure TiffWrite where
  level : Nat
  batchStart : Nat
  metadata : Option OmeMetadata
  reducedResolution : Bool
deriving DecidableEq

/-- The batch start offsets `range(0, total_channels, batch_size)`
(scripts/register_akoya_palom_v1.py line 656). -/
def batchStarts (total batchSize : Nat) : List Nat :=
  (List.range ((total + batchSize - 1) / batchSize)).map (fun i => i * batchSize)

/-- One write of the batched writer, as issued for level `lvl` and batch
start `s` (scripts/register_akoya_palom_v1.py lines 666-699): the metadata
dict is passed only when `level_idx == 0 and batch_start == 0`;
`subfiletype=1` is passed exactly when `level_idx != 0`. -/
def mkTiffWrite (pixelSize : ℚ) (lvl s : Nat) : TiffWrite :=
  { level := lvl
    batchStart := s
    metadata :=
      if lvl = 0 ∧ s = 0 then
        some { axes := "CYX", physicalSizeX := pixelSize,
               physicalSizeY := pixelSize }
      else none
    reducedResolution := decide (lvl ≠ 0) }

/-- The sequence of writes issued for one pyramid level
(scripts/register_akoya_palom_v1.py lines 656-699): one write per batch. -/
def levelWrites (pixelSize : ℚ) (lvl total batchSize : Nat) : List TiffWrite :=
  (batchStarts total batchSize).map (fun s => mkTiffWrite pixelSize lvl s)

/-- The full ordered sequence of `tif.write` calls of the batched writer
(scripts/register_akoya_palom_v1.py lines 643-699): levels in order, each
level's batches in order. -/
def writeSequence (pixelSize : ℚ) (nLevels total batchSize : Nat) :
    List TiffWrite :=
  (List.range nLevels).flatMap (fun lvl => levelWrites pixelSize lvl total batchSize)

/-- The metadata-placement property of the write sequence: the very first
write carries the OME metadata (axes "CYX", physical pixel size X/Y) and is a
level-0, batch-0 write without the reduced-resolution flag; the metadata
appears in exactly one write; a write carries metadata exactly when it is the
level-0 batch-0 write; and a write carries the reduced-resolution flag exactly
when its level is positive. -/
def metadataPlacementOK (seq : List TiffWrite) (pixelSize : ℚ) : Prop :=
  seq.head? = some
      { level := 0, batchStart := 0,
        metadata := some { axes := "CYX", physicalSizeX := pixelSize,
                           physicalSizeY := pixelSize },
        reducedResolution := false }
  ∧ seq.countP (fun wr => wr.metadata.isSome) = 1
  ∧ (∀ wr ∈ seq, (wr.metadata.isSome = true ↔ (wr.level = 0 ∧ wr.batchStart = 0)))
  ∧ (∀ wr ∈ seq, (wr.reducedResolution = true ↔ wr.level ≠ 0))

/-- Outcome of `main` in register_akoya_palom.py as far as the staging area is
concerned: whether the staging temporary directory was removed before control
returned, and the surfaced result.  Errors are the uninterpreted exception text of
the failing collaborator call (the code attaches nothing to them). -/
structure PipelineExit where
  stagingRemoved : Bool
  outcome : Except String Unit

/-- The channel-materialization loops of register_akoya_palom.py main
(lines 199-214 and 256-279): global channel indices `start, start+1, ...` are
read (and transformed) one at a time; the first upstream failure propagates
immediately as the raw exception, with no channel index attached and no
cleanup handler in scope (the loops precede the `try:` at line 296). -/
def materializeFrom (read : Nat → Except String Unit) :
    Nat → Nat → Except String Unit
  | _, 0 => Except.ok ()
  | start, k + 1 =>
    match read start with
    | Except.error e => Except.error e
    | Except.ok _ => materializeFrom read (start + 1) k

/-- register_akoya_palom.py main, staging-area lifecycle: `tempfile.mkdtemp()`
at line 173, then the materialization loops (lines 199-289) run with no
enclosing handler, then the `try:` at line 296 covers marker loading, dask
assembly and the pyramid write, with `finally: shutil.rmtree(temp_dir)` at
lines 453-457.  Hence: a materialization failure surfaces with the staging
directory still present; a failure (or success) of the guarded phase reaches
the `finally` and the staging directory is removed first. -/
def mainPipeline (nChannels : Nat) (read : Nat → Except String Unit)
    (writeResult : Except String Unit) : PipelineExit :=
  match materializeFrom read 0 nChannels with
  | Except.error e => { stagingRemoved := false, outcome := Except.error e }
  | Except.ok _ => { stagingRemoved := true, outcome := writeResult }

/-- register_akoya_palom.py lines 98-104: `percent = int((current / total) *
100)`.  All call sites pass `total = 100`. -/
def report_progress (current total : Nat) : Nat :=
  current * 100 / total

/-- One moving cycle of the run: the first component is the `--cycle-channels`
selection count for that cycle (`none` when the cycle has no entry), the
second is the cycle's actual channel count in its file. -/
abbrev MovingCycle := Option Nat × Nat

/-- register_akoya_palom.py lines 176-187: `total_channels_estimate` counts the
reference selection, plus each moving cycle's selection when given, otherwise
the reference selection count again ("Estimate based on reference"). -/
def channelEstimate (refCount : Nat) (cycles : List MovingCycle) : Nat :=
  refCount + (cycles.map (fun cyc =>
    match cyc.1 with
    | some k => k
    | none => refCount)).sum

/-- The number of channels the loops actually process: the reference
selection, plus each moving cycle's selection when given, otherwise ALL of
that cycle's channels (register_akoya_palom.py lines 244-253). -/
def channelsProcessed (refCount : Nat) (cycles : List MovingCycle) : Nat :=
  refCount + (cycles.map (fun cyc =>
    match cyc.1 with
    | some k => k
    | none => cyc.2)).sum

/-- The per-channel progress reports (register_akoya_palom.py lines 209-211 and
274-276): after the g-th channel (g = 1, 2, ...),
`progress = 5 + int((g / total_channels_estimate) * 60)` is reported. -/
def channelProgressReports (refCount : Nat) (cycles : List MovingCycle) :
    List Nat :=
  (List.range (channelsProcessed refCount cycles)).map (fun g =>
    report_progress (5 + ((g + 1) * 60) / channelEstimate refCount cycles) 100)

/-- The ordered sequence of percentages reported over one run of
register_akoya_palom.py main: 5 (line 192), the per-channel reports, 65 (line
294), 67 (line 300), 70 (line 349), one report per item yielded by the wrapped
tile generator — `70 + int((level_num / max_levels) * 30)` for `level_num = 0,
1, ...` (lines 406-417) — and the final 100 (line 435). -/
def progressSeq (refCount : Nat) (cycles : List MovingCycle)
    (maxLevelsWrite nWriteItems : Nat) : List Nat :=
  report_progress 5 100 :: channelProgressReports refCount cycles
    ++ report_progress 65 100 :: report_progress 67 100 :: report_progress 70 100 ::
      (List.range nWriteItems).map (fun k =>
        report_progress (70 + (k * 30) / maxLevelsWrite) 100)
    ++ [report_progress 100 100]

/-- convert_to_pyramidal.py lines 56-62: the `try` reads the XResolution
rational `(value[0], value[1])` and computes `1.0 / (value[1] / value[0]) *
1000`; ANY failure (missing tag, or a zero making a division raise) falls into
the `except`, which sets the documented default `pixel_size = 0.5`. -/
def pixelSizeOrDefault (xres : Option (ℤ × ℤ)) : ℚ :=
  match xres with
  | none => 1 / 2
  | some (v0, v1) =>
    if v0 = 0 ∨ v1 = 0 then 1 / 2
    else 1 / ((v1 : ℚ) / (v0 : ℚ)) * 1000

/-- downsample_registered.py lines 65-77: the `try` reads `PhysicalSizeX` from
the OME metadata and scales it by `2 ** level_idx`; any failure falls into the
`except`, which sets the default `1.0` (unscaled). -/
def pixelSizeOrDefaultDownsample (physicalSize : Option ℚ) (levelIdx : Nat) : ℚ :=
  match physicalSize with
  | none => 1
  | some p => p * 2 ^ levelIdx

/-- The possible outcomes of palom's `da_to_zarr` as seen by the wrapper in
register_akoya_palom.py lines 385-394: success, a dask
`PerformanceWarning` raised because of chunking, or any other exception. -/
inductive ZarrWriteOutcome (A : Type)
  | ok (a : A)
  | perfWarning
  | otherError (msg : String)

/-- register_akoya_palom.py lines 385-394 (`safe_da_to_zarr`): call the
original; on `da.core.PerformanceWarning`, recover by returning
`da_img.compute()` instead of surfacing; any other exception propagates. -/
def safe_da_to_zarr {A : Type} (outcome : ZarrWriteOutcome A) (computed : A) :
    Except String A :=
  match outcome with
  | ZarrWriteOutcome.ok a => Except.ok a
  | ZarrWriteOutcome.perfWarning => Except.ok computed
  | ZarrWriteOutcome.otherError m => Except.error m

/-- The default channel names `["Channel_0", ..., "Channel_<n-1>"]`
(register_akoya_palom.py lines 76, 92, 95). -/
def defaultChannelNames (n : Nat) : List String :=
  (List.range n).map (fun i => "Channel_" ++ toString i)

/-- What the markers argument resolves to for `load_marker_names`:
the path is None or does not exist; or opening/parsing the file raises; or the
csv rows are read, each contributing the first non-empty value among the
`marker_name`/`marker`/`name`/`channel_name` columns (`none` when the row has
no such non-empty value, which the code's `if name:` skips). -/
inductive MarkersSource
  | absent
  | unreadable
  | readRows (names : List (Option String))

/-- register_akoya_palom.py lines 73-95 (`load_marker_names`): defaults when
the path is None or missing; otherwise parse the csv inside a `try` — any
exception yields the defaults; collected names are returned only when their
count equals `n_channels`, otherwise the defaults are returned. -/
def load_marker_names (src : MarkersSource) (nChannels : Nat) : List String :=
  match src with
  | MarkersSource.absent => defaultChannelNames nChannels
  | MarkersSource.unreadable => defaultChannelNames nChannels
  | MarkersSource.readRows names =>
    let markerNames := names.filterMap id
    if markerNames.length = nChannels then markerNames
    else defaultChannelNames nChannels

/-- Concrete input: a 3-channel 2048 x 2048 stack (spec Scenario A base). -/
def cimg2048 : CImg :=
  { c := 3, h := 2048, w := 2048, px := fun _ _ _ => 0 }

/-- Concrete input: a 3-channel 256 x 256 stack, already below a 512
threshold at the base level. -/
def cimgSub : CImg :=
  { c := 3, h := 256, w := 256, px := fun _ _ _ => 0 }

/-- Concrete input: a 1-channel 4 x 4 stack with distinguishable samples
(`px ch i j = 10 * i + j`). -/
def cimg4 : CImg :=
  { c := 1, h := 4, w := 4, px := fun _ i j => 10 * i + j }

/-- Concrete input: a 2 x 2 plane with samples 0, 4, 4, 4 — its decimation
keeps sample 0 while its 2x2 local mean is 3. -/
def imgQuad : Img :=
  { h := 2, w := 2, px := fun i j => if i = 0 ∧ j = 0 then 0 else 4 }

/-- Concrete upstream reader where the read of global channel 2 fails with an
uninterpreted collaborator exception and every other channel read succeeds. -/
def cexRead : Nat → Except String Unit := fun i =>
  if i = 2 then Except.error "upstream read failed" else Except.ok ()

/-- Concrete run shape for the progress model: one moving cycle with no
`--cycle-channels` entry and 3 actual channels. -/
def cexCycles : List MovingCycle := [(none, 3)]

/-! ### Helper lemmas about the pyramid planner -/

theorem buildPyramidAux_length_le (thr : Nat) :
    ∀ (fuel : Nat) (prev : CImg), (buildPyramidAux thr prev fuel).length ≤ fuel := by
  intro fuel
  induction fuel with
  | zero => intro prev; simp [buildPyramidAux]
  | succ f ih =>
    intro prev
    simp only [buildPyramidAux]
    split
    · simp
    · simpa using Nat.succ_le_succ (ih (downCHW prev))

theorem buildPyramidAux_getD_succ (thr : Nat) :
    ∀ (fuel : Nat) (prev : CImg) (l : Nat),
      l + 1 < (prev :: buildPyramidAux thr prev fuel).length →
      (prev :: buildPyramidAux thr prev fuel).getD (l + 1) dummyC
          = downCHW ((prev :: buildPyramidAux thr prev fuel).getD l dummyC)
        ∧ thr ≤ min ((prev :: buildPyramidAux thr prev fuel).getD l dummyC).h
            ((prev :: buildPyramidAux thr prev fuel).getD l dummyC).w := by
  intro fuel
  induction fuel with
  | zero =>
    intro prev l hl
    simp [buildPyramidAux] at hl
  | succ f ih =>
    intro prev l hl
    simp only [buildPyramidAux] at hl ⊢
    by_cases hc : min prev.h prev.w < thr
    · rw [if_pos hc] at hl
      simp at hl
    · rw [if_neg hc] at hl ⊢
      cases l with
      | zero =>
        refine ⟨rfl, ?_⟩
        simpa using Nat.le_of_not_lt hc
      | succ l' =>
        have h2 : l' + 1 <
            (downCHW prev :: buildPyramidAux thr (downCHW prev) f).length := by
          simp only [List.length_cons] at hl ⊢
          omega
        have hih := ih (downCHW prev) l' h2
        simpa using hih

theorem buildPyramidAux_exists_sub (thr : Nat) :
    ∀ (fuel : Nat) (prev : CImg),
      (buildPyramidAux thr prev fuel).length < fuel →
      ∃ lvl ∈ prev :: buildPyramidAux thr prev fuel, min lvl.h lvl.w < thr := by
  intro fuel
  induction fuel with
  | zero =>
    intro prev h
    exact absurd h (Nat.not_lt_zero _)
  | succ f ih =>
    intro prev h
    simp only [buildPyramidAux] at h ⊢
    by_cases hc : min prev.h prev.w < thr
    · rw [if_pos hc]
      exact ⟨prev, List.mem_cons_self _ _, hc⟩
    · rw [if_neg hc] at h ⊢
      have h2 : (buildPyramidAux thr (downCHW prev) f).length < f := by
        simp only [List.length_cons] at h
        omega
      obtain ⟨lvl, hmem, hlt⟩ := ih (downCHW prev) h2
      exact ⟨lvl, List.mem_cons_of_mem _ hmem, hlt⟩

theorem buildPyramidAux_channels (thr : Nat) :
    ∀ (fuel : Nat) (prev : CImg),
      ∀ lvl ∈ buildPyramidAux thr prev fuel, lvl.c = prev.c := by
  intro fuel
  induction fuel with
  | zero =>
    intro prev lvl h
    simp [buildPyramidAux] at h
  | succ f ih =>
    intro prev lvl h
    simp only [buildPyramidAux] at h
    by_cases hc : min prev.h prev.w < thr
    · rw [if_pos hc] at h
      simp at h
    · rw [if_neg hc] at h
      rcases List.mem_cons.mp h with h1 | h2
      · rw [h1]; rfl
      · simpa using ih (downCHW prev) lvl h2

theorem build_pyramid_getD_succ (d : CImg) (m t l : Nat)
    (hl : l + 1 < (build_pyramid d m t).length) :
    (build_pyramid d m t).getD (l + 1) dummyC
        = downCHW ((build_pyramid d m t).getD l dummyC)
      ∧ t ≤ min ((build_pyramid d m t).getD l dummyC).h
          ((build_pyramid d m t).getD l dummyC).w :=
  buildPyramidAux_getD_succ t (m - 1) d l hl

/-- Claim C2 (corrected): any level of the planned pyramid whose minimum
dimension is below `min_size_for_next` is the last level emitted, and whenever
the planner stopped before reaching `max_levels` entries the pyramid does
contain such a sub-threshold level (hence, with the first conjunct, exactly
one, the last).  The original claim's "exactly one for every input" fails when
`max_levels` is exhausted first (see the counterexample). -/
theorem C2_sub_threshold_last (d : CImg) (m t : Nat) :
    (∀ l, l < (build_pyramid d m t).length →
        min ((build_pyramid d m t).getD l dummyC).h
            ((build_pyramid d m t).getD l dummyC).w < t →
        l + 1 = (build_pyramid d m t).length)
    ∧ ((build_pyramid d m t).length < m →
        ∃ lvl ∈ build_pyramid d m t, min lvl.h lvl.w < t) := by
  constructor
  · intro l hl hsub
    by_contra hne
    have hsucc : l + 1 < (build_pyramid d m t).length := by omega
    have hge := (build_pyramid_getD_succ d m t l hsucc).2
    omega
  · intro hlen
    apply buildPyramidAux_exists_sub t (m - 1) d
    have hlc : (build_pyramid d m t).length
        = (buildPyramidAux t d (m - 1)).length + 1 := by
      simp [build_pyramid]
    omega

theorem C2_sub_threshold_last_witness :
    (build_pyramid cimgSub 3 512).length < 3
    ∧ ∃ lvl ∈ build_pyramid cimgSub 3 512, min lvl.h lvl.w < 512 :=
  ⟨by decide, (C2_sub_threshold_last cimgSub 3 512).2 (by decide)⟩

theorem C2_counterexample :
    ¬ ((build_pyramid cimg2048 2 512).countP
        (fun lvl => decide (min lvl.h lvl.w < 512)) = 1) := by decide

/-- Claim C5 (corrected): for `max_levels >= 1` the planner emits at most
`max_levels` entries, and whenever level l+1 exists, level l satisfied
`min(h[l], w[l]) >= min_size_for_next`.  At `max_levels = 0` the code still
emits the base level (see the counterexample). -/
theorem C5_planner_stopping (d : CImg) (m t : Nat) (hm : 1 ≤ m) :
    (build_pyramid d m t).length ≤ m
    ∧ ∀ l, l + 1 < (build_pyramid d m t).length →
        t ≤ min ((build_pyramid d m t).getD l dummyC).h
            ((build_pyramid d m t).getD l dummyC).w := by
  constructor
  · have hle := buildPyramidAux_length_le t (m - 1) d
    simp only [build_pyramid, List.length_cons]
    omega
  · intro l hl
    exact (build_pyramid_getD_succ d m t l hl).2

theorem C5_planner_stopping_witness :
    (1 : Nat) ≤ 2 ∧ (build_pyramid cimg4 2 2).length ≤ 2 :=
  ⟨by decide, (C5_planner_stopping cimg4 2 2 (by decide)).1⟩

theorem C5_counterexample :
    ¬ ((build_pyramid cimg2048 0 512).length ≤ 0) := by decide

/-- Claim C6 (confirmed): each consecutive pyramid level has the floor-halved
dimensions of its predecessor, and (decimation being the code's reduction)
every sample of level l+1 is the predecessor's sample at doubled row and
column indices, within the truncated floor dimensions. -/
theorem C6_level_dimension_law (d : CImg) (m t l : Nat)
    (hl : l + 1 < (build_pyramid d m t).length) :
    ((build_pyramid d m t).getD (l + 1) dummyC).h
        = ((build_pyramid d m t).getD l dummyC).h / 2
    ∧ ((build_pyramid d m t).getD (l + 1) dummyC).w
        = ((build_pyramid d m t).getD l dummyC).w / 2
    ∧ ∀ ch i j, i < ((build_pyramid d m t).getD l dummyC).h / 2 →
        j < ((build_pyramid d m t).getD l dummyC).w / 2 →
        ((build_pyramid d m t).getD (l + 1) dummyC).px ch i j
          = ((build_pyramid d m t).getD l dummyC).px ch (2 * i) (2 * j) := by
  rw [(build_pyramid_getD_succ d m t l hl).1]
  exact ⟨rfl, rfl, fun ch i j _ _ => rfl⟩

theorem C6_level_dimension_law_witness :
    0 + 1 < (build_pyramid cimg4 2 2).length
    ∧ ((build_pyramid cimg4 2 2).getD (0 + 1) dummyC).h
        = ((build_pyramid cimg4 2 2).getD 0 dummyC).h / 2
    ∧ ((build_pyramid cimg4 2 2).getD (0 + 1) dummyC).px 0 1 1
        = ((build_pyramid cimg4 2 2).getD 0 dummyC).px 0 (2 * 1) (2 * 1) := by
  have h : 0 + 1 < (build_pyramid cimg4 2 2).length := by decide
  have hth := C6_level_dimension_law cimg4 2 2 0 h
  exact ⟨h, hth.1, hth.2.2 0 1 1 (by decide) (by decide)⟩

/-- Claim C3 (corrected): the code's only 2x reduction is decimation — keep
every second row and column, truncated to floor dimensions — and this single
policy is what every level of every channel of a run is derived with; no
local-mean option exists (see the counterexample against the spec-side
local-mean definition). -/
theorem C3_decimation_only_uniform :
    (∀ img : Img, (downsample_2x img).h = img.h / 2
        ∧ (downsample_2x img).w = img.w / 2
        ∧ ∀ i j, (downsample_2x img).px i j = img.px (2 * i) (2 * j))
    ∧ ∀ (d : CImg) (m t l : Nat), l + 1 < (build_pyramid d m t).length →
        ∀ ch, ((build_pyramid d m t).getD (l + 1) dummyC).plane ch
            = downsample_2x (((build_pyramid d m t).getD l dummyC).plane ch) := by
  refine ⟨fun img => ⟨rfl, rfl, fun i j => rfl⟩, ?_⟩
  intro d m t l hl ch
  rw [(build_pyramid_getD_succ d m t l hl).1]
  rfl

theorem C3_decimation_only_uniform_witness :
    0 + 1 < (build_pyramid cimg4 2 2).length
    ∧ ((build_pyramid cimg4 2 2).getD (0 + 1) dummyC).plane 0
        = downsample_2x (((build_pyramid cimg4 2 2).getD 0 dummyC).plane 0) :=
  ⟨by decide, C3_decimation_only_uniform.2 cimg4 2 2 0 (by decide) 0⟩

theorem C3_counterexample :
    (downsample_2x imgQuad).px 0 0 ≠ (local_mean_2x_spec imgQuad).px 0 0 := by decide

/-- Claim C8 (confirmed): every level of the pyramid carries exactly the same
channel index set {0, ..., c-1} as the base data — the channel-count field is
preserved by every downsampling step, so no channel is dropped or duplicated
at any level. -/
theorem C8_channel_count_invariant (d : CImg) (m t : Nat) :
    ∀ lvl ∈ build_pyramid d m t, lvl.c = d.c := by
  intro lvl hmem
  rcases List.mem_cons.mp hmem with h1 | h2
  · rw [h1]
  · exact buildPyramidAux_channels t (m - 1) d lvl h2

theorem C8_channel_count_invariant_witness :
    cimg4 ∈ build_pyramid cimg4 2 2 ∧ cimg4.c = cimg4.c :=
  ⟨List.mem_cons_self _ _,
    C8_channel_count_invariant cimg4 2 2 cimg4 (List.mem_cons_self _ _)⟩

/-- Claim C10 (confirmed): `load_marker_names` always returns exactly
`n_channels` names (it is a total function — the csv parsing is guarded by a
`try`); when the markers path is None/missing, the file is unreadable, or the
collected names do not number `n_channels`, the result is exactly the
defaults `["Channel_0", ..., "Channel_<n-1>"]`. -/
theorem C10_marker_names_total (src : MarkersSource) (n : Nat) :
    (load_marker_names src n).length = n
    ∧ (src = MarkersSource.absent ∨ src = MarkersSource.unreadable →
        load_marker_names src n = defaultChannelNames n)
    ∧ ∀ names, src = MarkersSource.readRows names →
        (names.filterMap id).length ≠ n →
        load_marker_names src n = defaultChannelNames n := by
  refine ⟨?_, ?_, ?_⟩
  · cases src with
    | absent => simp [load_marker_names, defaultChannelNames]
    | unreadable => simp [load_marker_names, defaultChannelNames]
    | readRows names =>
      by_cases hlen : (names.filterMap id).length = n
      · simp [load_marker_names, hlen]
      · simp [load_marker_names, hlen, defaultChannelNames]
  · rintro (rfl | rfl) <;> rfl
  · rintro names rfl hne
    simp [load_marker_names, hne]

theorem C10_marker_names_witness :
    (load_marker_names (MarkersSource.readRows [some "CD3"]) 3).length = 3
    ∧ load_marker_names (MarkersSource.readRows [some "CD3"]) 3
        = defaultChannelNames 3 := by
  have hth := C10_marker_names_total (MarkersSource.readRows [some "CD3"]) 3
  exact ⟨hth.1, hth.2.2 [some "CD3"] rfl (by decide)⟩

/-- Claim C1 (code bug): with 5 channels where the upstream read of global
channel 2 fails, `main` of register_akoya_palom.py surfaces the raw upstream
exception with the staging temporary directory still present — the
materialization loops precede the `try`/`finally` that removes it — and
nothing attaches the offending channel index to the error. -/
theorem C1_staging_left_behind :
    mainPipeline 5 cexRead (Except.ok ()) =
      { stagingRemoved := false, outcome := Except.error "upstream read failed" } := rfl

/-- Claim C4 (code bug): with a reference selection of 1 channel and one
moving cycle that has no `--cycle-channels` entry but 3 actual channels, the
channel estimate is 2 while 4 channels are processed, so the reported
percentages run 5, 35, 65, 95, 125 and then drop back to 65: the progress
sequence is not monotonically non-decreasing. -/
theorem C4_progress_regresses :
    ¬ List.Chain' (fun a b => a ≤ b) (progressSeq 1 cexCycles 3 3) := by
  rw [List.chain'_iff_pairwise]
  decide

/-- Claim C9 (corrected): absent physical-pixel-size metadata does fall back
to the documented defaults (0.5 um in convert_to_pyramidal.py, 1.0 um in
downsample_registered.py) and the pipeline continues — but it is not the only
recovered condition: the wrapped writer also recovers from a dask chunking
PerformanceWarning by computing directly instead of surfacing it. -/
theorem C9_pixel_size_fallback :
    pixelSizeOrDefault none = 1 / 2
    ∧ pixelSizeOrDefaultDownsample none 1 = 1
    ∧ ∀ (x : Nat), safe_da_to_zarr ZarrWriteOutcome.perfWarning x = Except.ok x :=
  ⟨rfl, rfl, fun _ => rfl⟩

theorem C9_counterexample :
    safe_da_to_zarr ZarrWriteOutcome.perfWarning (37 : Nat) = Except.ok 37 := rfl

/-! ### Helper lemmas about the batched tiled-container writer -/

theorem batchStarts_eq_cons (total b : Nat) (ht : 0 < total) (hb : 0 < b) :
    ∃ rest, batchStarts total b = 0 :: rest ∧ ∀ s ∈ rest, s ≠ 0 := by
  have hnb : 0 < (total + b - 1) / b :=
    Nat.div_pos (by omega) hb
  obtain ⟨k, hk⟩ := Nat.exists_eq_succ_of_ne_zero (Nat.pos_iff_ne_zero.mp hnb)
  refine ⟨(List.range k).map (fun i => (i + 1) * b), ?_, ?_⟩
  · rw [batchStarts, hk, List.range_succ_eq_map]
    simp [List.map_map, Function.comp_def]
  · intro s hs
    simp only [List.mem_map] at hs
    obtain ⟨i, _, rfl⟩ := hs
    have hpos : 0 < (i + 1) * b := Nat.mul_pos (Nat.succ_pos i) hb
    omega

theorem levelWrites_metadata_none (pixelSize : ℚ) (total b lvl : Nat)
    (h : lvl ≠ 0) :
    ∀ wr ∈ levelWrites pixelSize lvl total b, wr.metadata = none := by
  intro wr hw
  simp only [levelWrites, List.mem_map] at hw
  obtain ⟨s, _, rfl⟩ := hw
  simp [mkTiffWrite, h]

theorem countP_levelWrites_ne (pixelSize : ℚ) (total b lvl : Nat) (h : lvl ≠ 0) :
    (levelWrites pixelSize lvl total b).countP (fun wr => wr.metadata.isSome) = 0 := by
  rw [List.countP_eq_zero]
  intro wr hw
  rw [levelWrites_metadata_none pixelSize total b lvl h wr hw]
  simp

theorem countP_levelWrites_zero (pixelSize : ℚ) (total b : Nat)
    (ht : 0 < total) (hb : 0 < b) :
    (levelWrites pixelSize 0 total b).countP (fun wr => wr.metadata.isSome) = 1 := by
  obtain ⟨rest, hcons, hne⟩ := batchStarts_eq_cons total b ht hb
  rw [levelWrites, hcons, List.map_cons, List.countP_cons]
  have hrest : ((rest.map (fun s => mkTiffWrite pixelSize 0 s)).countP
      (fun wr => wr.metadata.isSome)) = 0 := by
    rw [List.countP_eq_zero]
    intro wr hw
    simp only [List.mem_map] at hw
    obtain ⟨s, hs, rfl⟩ := hw
    simp [mkTiffWrite, hne s hs]
  rw [hrest]
  simp [mkTiffWrite]

theorem writeSequence_succ (pixelSize : ℚ) (n total b : Nat) :
    writeSequence pixelSize (n + 1) total b
      = writeSequence pixelSize n total b ++ levelWrites pixelSize n total b := by
  simp [writeSequence, List.range_succ]

theorem countP_writeSequence (pixelSize : ℚ) (total b : Nat)
    (ht : 0 < total) (hb : 0 < b) :
    ∀ n, 0 < n →
      (writeSequence pixelSize n total b).countP (fun wr => wr.metadata.isSome) = 1 := by
  intro n
  induction n with
  | zero => intro h; omega
  | succ k ih =>
    intro _
    rw [writeSequence_succ, List.countP_append]
    cases Nat.eq_zero_or_pos k with
    | inl hk =>
      subst hk
      rw [countP_levelWrites_zero pixelSize total b ht hb]
      simp [writeSequence]
    | inr hk =>
      rw [ih hk, countP_levelWrites_ne pixelSize total b k (by omega)]

theorem writeSequence_head (pixelSize : ℚ) (n total b : Nat)
    (hn : 0 < n) (ht : 0 < total) (hb : 0 < b) :
    (writeSequence pixelSize n total b).head? = some
      { level := 0, batchStart := 0,
        metadata := some { axes := "CYX", physicalSizeX := pixelSize,
                           physicalSizeY := pixelSize },
        reducedResolution := false } := by
  obtain ⟨k, rfl⟩ := Nat.exists_eq_succ_of_ne_zero (Nat.pos_iff_ne_zero.mp hn)
  obtain ⟨rest, hcons, _⟩ := batchStarts_eq_cons total b ht hb
  rw [writeSequence, List.range_succ_eq_map, List.flatMap_cons, levelWrites,
    hcons, List.map_cons]
  simp [mkTiffWrite]

theorem mem_writeSequence (pixelSize : ℚ) (n total b : Nat) (wr : TiffWrite) :
    wr ∈ writeSequence pixelSize n total b →
      ∃ lvl s, lvl < n ∧ wr = mkTiffWrite pixelSize lvl s := by
  intro hw
  simp only [writeSequence, List.mem_flatMap, List.mem_range, levelWrites,
    List.mem_map] at hw
  obtain ⟨lvl, hlvl, s, hs, rfl⟩ := hw
  exact ⟨lvl, s, hlvl, rfl⟩

/-- Claim C7 (confirmed): in the batched write sequence, the very first write
is a level-0 batch-0 write that carries the OME metadata (axes and physical
pixel sizes); that metadata appears in exactly one write; every other write —
later level-0 batches and all sub-resolution levels — carries none; and a
write is flagged as a reduced-resolution derivative exactly when its level is
positive. -/
theorem C7_metadata_once (pixelSize : ℚ) (nLevels total batchSize : Nat)
    (hn : 0 < nLevels) (ht : 0 < total) (hb : 0 < batchSize) :
    metadataPlacementOK (writeSequence pixelSize nLevels total batchSize) pixelSize := by
  refine ⟨writeSequence_head pixelSize nLevels total batchSize hn ht hb,
    countP_writeSequence pixelSize total batchSize ht hb nLevels hn, ?_, ?_⟩
  · intro wr hw
    obtain ⟨lvl, s, _, rfl⟩ := mem_writeSequence pixelSize nLevels total batchSize wr hw
    by_cases hc : lvl = 0 ∧ s = 0
    · simp [mkTiffWrite, hc]
    · simp only [mkTiffWrite, if_neg hc]
      simpa [mkTiffWrite] using hc
  · intro wr hw
    obtain ⟨lvl, s, _, rfl⟩ := mem_writeSequence pixelSize nLevels total batchSize wr hw
    simp [mkTiffWrite]

theorem C7_metadata_once_witness :
    (0 : Nat) < 2 ∧ (0 : Nat) < 4 ∧ (0 : Nat) < 3 ∧
      metadataPlacementOK (writeSequence (1 / 2) 2 4 3) (1 / 2) :=
  ⟨by decide, by decide, by decide,
    C7_metadata_once (1 / 2) 2 4 3 (by decide) (by decide) (by decide)⟩
